import Mathlib

/-!
Shallow embedding of the goldai performance-gating core:
`performance_monitor.py` (PerformanceMonitor) and `trade_tracker.py`
(TradeTracker).  Money amounts, prices and timestamps are modelled as
rationals; the JSON string enumerations ('active'/'suspended'/'testing',
'win'/'loss'/'breakeven', 'active'/'closed', 'time_based') become inductive
types; `float('inf')` for the profit factor becomes a dedicated sum type.
File IO (load/save of the JSON documents) becomes explicit state passing:
each function takes the loaded document and returns the document it saves.
The model-version binder (`get_current_model_version`, the mtime of
`gold_v1.joblib`) and wall-clock `datetime.now()` are passed as parameters.
-/

namespace GoldAI

/-- The `result` field of a closed trade: 'win' | 'loss' | 'breakeven'. -/
inductive TradeResult where
  | win
  | loss
  | breakeven
deriving DecidableEq, Repr

/-- The `signal_status` field: 'active' | 'suspended' | 'testing'. -/
inductive SignalStatus where
  | active
  | suspended
  | testing
deriving DecidableEq, Repr

/-- The `status` field of a tracked trade: 'active' | 'closed'. -/
inductive TradeStatus where
  | active
  | closed
deriving DecidableEq, Repr

/-- The `exit_reason` field; the code only ever writes 'time_based'
(the spec's symbolic name for it is TIME_LIMIT). -/
inductive ExitReason where
  | timeBased
deriving DecidableEq, Repr

/-- Value of the `profit_factor` metric: a rational or `float('inf')`. -/
inductive PFValue where
  | inf
  | val (q : ℚ)
deriving DecidableEq, Repr

/-- Comparison `x >= c` on a profit factor, with `inf >= c` always true
(the Python float comparison). -/
def PFValue.geQ (x : PFValue) (c : ℚ) : Bool :=
  match x with
  | .inf => true
  | .val q => c ≤ q

/-- The fields of a trade record that `calculate_performance_metrics`
reads (`result`, `profit_loss`); also the shape of the synthetic trades
built by `validate_new_model_on_historical_data`. -/
structure SimTrade where
  result : TradeResult
  profit_loss : ℚ
deriving DecidableEq, Repr

/-- Result of `calculate_performance_metrics`. -/
structure PerfMetrics where
  total_trades : ℕ
  win_rate : ℚ
  profit_factor : PFValue
  net_profit : ℚ
  avg_win : ℚ
  avg_loss : ℚ
deriving DecidableEq, Repr

/-- A trade record appended by `record_trade_result` to
`performance_history['trades']`. -/
structure PerfRecord where
  timestamp : ℚ
  signal : ℤ
  confidence : ℚ
  entry_price : ℚ
  result : TradeResult
  profit_loss : ℚ
  model_version : String
deriving DecidableEq, Repr

/-- Restriction of a record to the fields the metrics function reads. -/
def PerfRecord.toSim (r : PerfRecord) : SimTrade :=
  ⟨r.result, r.profit_loss⟩

/-- An entry of `performance_history['model_versions']` as appended by
`post_retrain_validation`. -/
structure ModelVersionEntry where
  timestamp : ℚ
  version : String
  reason : String
deriving DecidableEq, Repr

/-- The `performance_history.json` document. -/
structure HistoryData where
  trades : List PerfRecord
  model_versions : List ModelVersionEntry
  signal_status : SignalStatus
  last_validation : Option ℚ
  performance_metrics : Option PerfMetrics
deriving DecidableEq, Repr

/-- The default document returned by `load_performance_history` when the
file does not exist. -/
def defaultHistory : HistoryData :=
  { trades := []
    model_versions := []
    signal_status := .active
    last_validation := none
    performance_metrics := none }

/-- Embeds `load_performance_history`: the stored document, or the default when
no file exists (`store = none`). -/
def loadPerformanceHistory (store : Option HistoryData) : HistoryData :=
  store.getD defaultHistory

/-- Threshold `self.min_win_rate = 0.55`. -/
def minWinRate : ℚ := 11 / 20

/-- Threshold `self.min_profit_factor = 1.2`. -/
def minProfitFactor : ℚ := 6 / 5

/-- Threshold `self.min_trades_for_validation = 20`. -/
def minTradesForValidation : ℕ := 20

/-- Embeds `calculate_performance_metrics(trades)`: `None` on an empty list,
otherwise win rate, profit factor (inf when the loss magnitude is zero),
net profit and averages. -/
def calculatePerformanceMetrics (trades : List SimTrade) : Option PerfMetrics :=
  if trades.isEmpty then none
  else
    let wins := trades.filter (fun t => t.result == .win)
    let losses := trades.filter (fun t => t.result == .loss)
    let total_trades := trades.length
    let win_rate : ℚ := (wins.length : ℚ) / (total_trades : ℚ)
    let total_profit : ℚ := (wins.map (fun t => t.profit_loss)).sum
    let total_loss : ℚ := |(losses.map (fun t => t.profit_loss)).sum|
    let profit_factor : PFValue :=
      if 0 < total_loss then .val (total_profit / total_loss) else .inf
    let net_profit : ℚ := (trades.map (fun t => t.profit_loss)).sum
    some
      { total_trades := total_trades
        win_rate := win_rate
        profit_factor := profit_factor
        net_profit := net_profit
        avg_win := if wins.isEmpty then 0 else total_profit / (wins.length : ℚ)
        avg_loss := if losses.isEmpty then 0 else total_loss / (losses.length : ℚ) }

/-- The threshold test of `validate_performance`:
win_rate ≥ min_win_rate ∧ profit_factor ≥ min_profit_factor ∧ net_profit > 0. -/
def performanceOk (m : PerfMetrics) : Bool :=
  decide (minWinRate ≤ m.win_rate) &&
  m.profit_factor.geQ minProfitFactor &&
  decide (0 < m.net_profit)

/-- Embeds `validate_performance()`: filter the stored trades to those stamped
with the current model version `ver`; with fewer than
`min_trades_for_validation` matches leave the document untouched and
return the current status; otherwise set the status from the thresholds,
store the metrics and the validation time `now`, and return the new
status.  Returns the document as persisted together with the returned
status. -/
def validatePerformance (ver : String) (now : ℚ) (data : HistoryData) :
    HistoryData × SignalStatus :=
  let modelTrades := data.trades.filter (fun t => t.model_version == ver)
  match calculatePerformanceMetrics (modelTrades.map PerfRecord.toSim) with
  | none => (data, data.signal_status)
  | some metrics =>
    if metrics.total_trades < minTradesForValidation then
      (data, data.signal_status)
    else
      let status := if performanceOk metrics then SignalStatus.active
                    else SignalStatus.suspended
      let data' := { data with
        signal_status := status
        performance_metrics := some metrics
        last_validation := some now }
      (data', status)

/-- Embeds `record_trade_result(signal, result, profit_loss)`: append a record
stamped with the model version current at recording time, then run
`validate_performance`.  Returns the finally persisted document and the
validation's status. -/
def recordTradeResult (ver : String) (now : ℚ)
    (signal : ℤ) (confidence entry_price : ℚ)
    (result : TradeResult) (profit_loss : ℚ)
    (data : HistoryData) : HistoryData × SignalStatus :=
  let rec0 : PerfRecord :=
    { timestamp := now
      signal := signal
      confidence := confidence
      entry_price := entry_price
      result := result
      profit_loss := profit_loss
      model_version := ver }
  validatePerformance ver now { data with trades := data.trades ++ [rec0] }

/-- Embeds `is_signal_allowed()`: load the document (default when absent) and
compare the status with 'active'. -/
def isSignalAllowed (store : Option HistoryData) : Bool :=
  (loadPerformanceHistory store).signal_status == .active

/-! ## TradeTracker (`trade_tracker.py`)

Trades live in `active_trades.json`.  A trade embeds the signal dict it was
opened on; closing mutates it in place.  `get_current_price` is modelled as
an `Option ℚ` parameter (`none` = fetch failed / no data).  Each close calls
`record_trade_result`; we return the sequence of such calls as a list of
`RecEvent`s alongside the updated trade list. -/

/-- The signal dict fields the tracker reads: `signal` (0 neutral, 1 buy,
2 sell), `confidence`, `entry_price`, `stop_loss`, `take_profit`. -/
structure TradeSignal where
  signal : ℤ
  confidence : ℚ
  entry_price : ℚ
  stop_loss : ℚ
  take_profit : ℚ
deriving DecidableEq, Repr

/-- A tracked trade as stored in `active_trades.json`. -/
structure Trade where
  id : String
  timestamp : ℚ
  signal : TradeSignal
  status : TradeStatus
  entry_time : ℚ
  result : Option TradeResult
  profit_loss : Option ℚ
  exit_price : Option ℚ
  exit_time : Option ℚ
  exit_reason : Option ExitReason
deriving DecidableEq, Repr

/-- One call to `performance_monitor.record_trade_result(signal, result,
profit_loss)` made while closing a trade. -/
structure RecEvent where
  signal : TradeSignal
  result : TradeResult
  profit_loss : ℚ
deriving DecidableEq, Repr

/-- Embeds `add_trade(signal)`: neutral signals are skipped; otherwise append a
fresh ACTIVE trade (note: no model-version field is written here). -/
def addTrade (id : String) (now : ℚ) (signal : TradeSignal)
    (trades : List Trade) : List Trade :=
  if signal.signal == 0 then trades
  else
    trades ++ [{ id := id
                 timestamp := now
                 signal := signal
                 status := .active
                 entry_time := now
                 result := none
                 profit_loss := none
                 exit_price := none
                 exit_time := none
                 exit_reason := none }]

/-- Loop body of `check_trade_outcomes` for one trade at price `p`:
non-active trades pass through; a buy closes LOSS at `p ≤ sl` else WIN at
`p ≥ tp`; a sell closes LOSS at `p ≥ sl` else WIN at `p ≤ tp`;
`profit_loss` is the signed distance from entry to the triggering
threshold. -/
def outcomeStep (p now : ℚ) (t : Trade) : Trade × Option RecEvent :=
  if t.status != .active then (t, none)
  else
    let s := t.signal
    let ro : Option (TradeResult × ℚ) :=
      if s.signal == 1 then
        if p ≤ s.stop_loss then some (.loss, s.stop_loss - s.entry_price)
        else if s.take_profit ≤ p then some (.win, s.take_profit - s.entry_price)
        else none
      else if s.signal == 2 then
        if s.stop_loss ≤ p then some (.loss, s.entry_price - s.stop_loss)
        else if p ≤ s.take_profit then some (.win, s.entry_price - s.take_profit)
        else none
      else none
    match ro with
    | none => (t, none)
    | some (r, pl) =>
      ({ t with status := .closed
                result := some r
                profit_loss := some pl
                exit_price := some p
                exit_time := some now },
       some ⟨s, r, pl⟩)

/-- Embeds `check_trade_outcomes()`: with no price available nothing changes and
nothing is recorded; otherwise every trade goes through `outcomeStep` and
the closes are reported in order. -/
def checkTradeOutcomes (price : Option ℚ) (now : ℚ) (trades : List Trade) :
    List Trade × List RecEvent :=
  match price with
  | none => (trades, [])
  | some p =>
    (trades.map (fun t => (outcomeStep p now t).1),
     trades.filterMap (fun t => (outcomeStep p now t).2))

/-- Loop body of `check_time_based_exits` for one trade: an active trade
whose age `(now - entry_time)` in hours reaches `maxHours` is force-closed
at the fetched price (skipped when the fetch fails), with `profit_loss`
against the current price and result win/loss/breakeven by its sign. -/
def timeExitStep (price : Option ℚ) (now maxHours : ℚ) (t : Trade) :
    Trade × Option RecEvent :=
  if t.status != .active then (t, none)
  else
    let hoursOpen := (now - t.entry_time) / 3600
    if maxHours ≤ hoursOpen then
      match price with
      | none => (t, none)
      | some p =>
        let pl := if t.signal.signal == 1 then p - t.signal.entry_price
                  else t.signal.entry_price - p
        let r := if 0 < pl then TradeResult.win
                 else if pl < 0 then TradeResult.loss
                 else TradeResult.breakeven
        ({ t with status := .closed
                  result := some r
                  profit_loss := some pl
                  exit_price := some p
                  exit_time := some now
                  exit_reason := some .timeBased },
         some ⟨t.signal, r, pl⟩)
    else (t, none)

/-- Embeds `check_time_based_exits(max_hours=24)` over the whole list (times are
in seconds; the fetched price is the same for every trade of the pass). -/
def checkTimeBasedExits (price : Option ℚ) (now maxHours : ℚ)
    (trades : List Trade) : List Trade × List RecEvent :=
  (trades.map (fun t => (timeExitStep price now maxHours t).1),
   trades.filterMap (fun t => (timeExitStep price now maxHours t).2))

/-! ## Historical backtest validator

`validate_new_model_on_historical_data` sweeps the test rows; a row whose
prediction is non-neutral with confidence ≥ 0.70 and 4h of forward data
produces a synthetic trade whose `profit_loss` is the signed 4h price move
(win iff positive).  The external model/dataframe is abstracted into
`rows : List (Option ℚ)`: `some pl` for a row producing a synthetic trade
with that profit/loss, `none` otherwise.  The decision block sits inside
the row loop, so the function returns at the first row at which 10 trades
have accumulated; if the sweep ends with fewer than 10 trades it returns
`(false, none)` ("insufficient historical trades"). -/

/-- The synthetic trade appended for a simulated profit/loss. -/
def simOutcome (pl : ℚ) : SimTrade :=
  ⟨if 0 < pl then .win else .loss, pl⟩

/-- The decision block (`if len(trades) >= 10:` body): overall metrics on
the accumulated trades, recent metrics on the last `max 5 (len/3)`, pass
iff (overall clears full thresholds ∧ recent clears thresholds relaxed by
0.05/0.2) ∨ recent win rate alone clears the full win-rate threshold. -/
def historicalDecision (trades : List SimTrade) : Bool × Option PerfMetrics :=
  match calculatePerformanceMetrics trades with
  | none => (false, none)
  | some overall =>
    let recentCount := max 5 (trades.length / 3)
    let recentTrades := trades.drop (trades.length - recentCount)
    match calculatePerformanceMetrics recentTrades with
    | none => (false, none)
    | some recent =>
      let overallOk := decide (minWinRate ≤ overall.win_rate) &&
                       overall.profit_factor.geQ minProfitFactor
      let recentOk := decide (minWinRate - 1/20 ≤ recent.win_rate) &&
                      recent.profit_factor.geQ (minProfitFactor - 1/5)
      ((overallOk && recentOk) || decide (minWinRate ≤ recent.win_rate),
       some overall)

/-- The row loop: accumulate synthetic trades; as soon as 10 have
accumulated, return the decision on them. -/
def historicalLoop (acc : List SimTrade) : List (Option ℚ) → Bool × Option PerfMetrics
  | [] => (false, none)
  | r :: rest =>
    let acc' := match r with
                | some pl => acc ++ [simOutcome pl]
                | none => acc
    if 10 ≤ acc'.length then historicalDecision acc'
    else historicalLoop acc' rest

/-- Embeds `validate_new_model_on_historical_data()` from the point the synthetic
trade stream is determined. -/
def validateNewModelOnHistoricalData (rows : List (Option ℚ)) :
    Bool × Option PerfMetrics :=
  historicalLoop [] rows

/-- Embeds `post_retrain_validation()`: append the new model-version entry, run
the historical validator (its result passed in as `histResult`), set the
gate from its verdict, store its metrics when present, persist, and return
the status. -/
def postRetrainValidation (ver : String) (now : ℚ)
    (histResult : Bool × Option PerfMetrics)
    (data : HistoryData) : HistoryData × SignalStatus :=
  let data1 := { data with
    model_versions := data.model_versions ++
      [({ timestamp := now, version := ver,
          reason := "monthly_retrain" } : ModelVersionEntry)] }
  let status := if histResult.1 then SignalStatus.active
                else SignalStatus.suspended
  let data2 := { data1 with signal_status := status }
  let data3 : HistoryData := match histResult.2 with
               | some m => { data2 with performance_metrics := some m }
               | none => data2
  (data3, status)

/-! ## Concrete data used by witnesses and counterexamples -/

/-- A winning trade record stamped with model version "v", used as witness
data. -/
def recWinV : PerfRecord :=
  { timestamp := 0
    signal := 1
    confidence := 1
    entry_price := 100
    result := .win
    profit_loss := 1
    model_version := "v" }

/-- A history holding 20 winning "v" records. -/
def d20 : HistoryData := { defaultHistory with trades := List.replicate 20 recWinV }

/-- A losing trade record stamped with model version "v1". -/
def recLossV1 : PerfRecord :=
  { timestamp := 0
    signal := 1
    confidence := 1
    entry_price := 100
    result := .loss
    profit_loss := -1
    model_version := "v1" }

/-- A history with 19 losing "v1" records (every threshold failing, sample
one short of the minimum), a prior ACTIVE status and an old
`last_validation` of 5. -/
def dC3 : HistoryData :=
  { trades := List.replicate 19 recLossV1
    model_versions := []
    signal_status := .active
    last_validation := some 5
    performance_metrics := none }

/-- An ACTIVE BUY trade with entry 100, stop-loss 95, take-profit 110,
opened at time 0, used as witness data. -/
def tradeBuy : Trade :=
  { id := "t1"
    timestamp := 0
    signal := { signal := 1, confidence := 1, entry_price := 100,
                stop_loss := 95, take_profit := 110 }
    status := .active
    entry_time := 0
    result := none
    profit_loss := none
    exit_price := none
    exit_time := none
    exit_reason := none }

/-- A CLOSED trade used as witness data. -/
def tradeClosed : Trade :=
  { id := "t0"
    timestamp := 0
    signal := { signal := 1, confidence := 1, entry_price := 100,
                stop_loss := 95, take_profit := 110 }
    status := .closed
    entry_time := 0
    result := some .win
    profit_loss := some 10
    exit_price := some 110
    exit_time := some 1
    exit_reason := none }

/-- The decision rule exactly as the claim words it (for comparison with
the source's `historicalDecision`): pass iff (overall clears the full
thresholds AND the recent cohort clears the relaxed thresholds) OR the
recent cohort alone clears the FULL thresholds — win rate and profit
factor both. -/
def claimedHistoricalPass (trades : List SimTrade) : Bool :=
  match calculatePerformanceMetrics trades with
  | none => false
  | some overall =>
    let recentCount := max 5 (trades.length / 3)
    let recentTrades := trades.drop (trades.length - recentCount)
    match calculatePerformanceMetrics recentTrades with
    | none => false
    | some recent =>
      let overallFull := decide (minWinRate ≤ overall.win_rate) &&
        overall.profit_factor.geQ minProfitFactor
      let recentRelaxed := decide (minWinRate - 1/20 ≤ recent.win_rate) &&
        recent.profit_factor.geQ (minProfitFactor - 1/5)
      let recentFull := decide (minWinRate ≤ recent.win_rate) &&
        recent.profit_factor.geQ minProfitFactor
      (overallFull && recentRelaxed) || recentFull

/-- A row sweep producing exactly 10 synthetic trades: five -1 losses,
then three +1 wins and two -10 losses. -/
def rowsC4 : List (Option ℚ) :=
  [some (-1), some (-1), some (-1), some (-1), some (-1),
   some 1, some 1, some 1, some (-10), some (-10)]

/-- The synthetic trades those rows produce. -/
def tradesC4 : List SimTrade :=
  [⟨.loss, -1⟩, ⟨.loss, -1⟩, ⟨.loss, -1⟩, ⟨.loss, -1⟩, ⟨.loss, -1⟩,
   ⟨.win, 1⟩, ⟨.win, 1⟩, ⟨.win, 1⟩, ⟨.loss, -10⟩, ⟨.loss, -10⟩]

/-! ## Helper lemmas -/

theorem tradeResult_beq_win_win : (TradeResult.win == TradeResult.win) = true := rfl

theorem tradeResult_beq_loss_win : (TradeResult.loss == TradeResult.win) = false := rfl

theorem tradeResult_beq_breakeven_win : (TradeResult.breakeven == TradeResult.win) = false := rfl

theorem tradeResult_beq_win_loss : (TradeResult.win == TradeResult.loss) = false := rfl

theorem tradeResult_beq_loss_loss : (TradeResult.loss == TradeResult.loss) = true := rfl

theorem tradeResult_beq_breakeven_loss : (TradeResult.breakeven == TradeResult.loss) = false := rfl

/-- The metrics of a nonempty record list exist. -/
theorem calcMetrics_cons (t : SimTrade) (ts : List SimTrade) :
    ∃ m, calculatePerformanceMetrics (t :: ts) = some m :=
  ⟨_, rfl⟩

/-- The function `calculate_performance_metrics` preserves the list length in
`total_trades`. -/
theorem calcMetrics_total (l : List SimTrade) (m : PerfMetrics)
    (h : calculatePerformanceMetrics l = some m) : m.total_trades = l.length := by
  unfold calculatePerformanceMetrics at h
  split at h
  · cases h
  · cases h
    rfl

/-- The function `validate_performance` never touches the stored trade list. -/
theorem validatePerformance_trades (ver : String) (now : ℚ) (d : HistoryData) :
    (validatePerformance ver now d).1.trades = d.trades := by
  simp only [validatePerformance]
  cases h : calculatePerformanceMetrics
      ((d.trades.filter (fun t => t.model_version == ver)).map PerfRecord.toSim) with
  | none => rfl
  | some m =>
    simp only []
    split
    · rfl
    · rfl

/-- With fewer matching records than the minimum, `validate_performance`
persists nothing and returns the current status. -/
theorem validatePerformance_insufficient (ver : String) (now : ℚ) (d : HistoryData)
    (h : (d.trades.filter (fun t => t.model_version == ver)).length <
      minTradesForValidation) :
    validatePerformance ver now d = (d, d.signal_status) := by
  simp only [validatePerformance]
  cases hm : calculatePerformanceMetrics
      ((d.trades.filter (fun t => t.model_version == ver)).map PerfRecord.toSim) with
  | none => rfl
  | some m =>
    have htot := calcMetrics_total _ _ hm
    rw [List.length_map] at htot
    simp only []
    rw [if_pos (htot ▸ h)]

/-- Any nonempty record list has metrics. -/
theorem calcMetrics_ne_nil (l : List SimTrade) (h : l ≠ []) :
    ∃ m, calculatePerformanceMetrics l = some m := by
  cases l with
  | nil => exact absurd rfl h
  | cons t ts => exact calcMetrics_cons t ts

/-- With at least the minimum of matching records, `validate_performance`
persists the metrics, the validation time and the threshold verdict. -/
theorem validatePerformance_sufficient (ver : String) (now : ℚ) (d : HistoryData)
    (m : PerfMetrics)
    (hm : calculatePerformanceMetrics
      ((d.trades.filter (fun t => t.model_version == ver)).map PerfRecord.toSim) =
        some m)
    (hc : minTradesForValidation ≤ m.total_trades) :
    validatePerformance ver now d =
      ({ d with
          signal_status :=
            if performanceOk m then SignalStatus.active else SignalStatus.suspended
          performance_metrics := some m
          last_validation := some now },
       if performanceOk m then SignalStatus.active else SignalStatus.suspended) := by
  simp only [validatePerformance]
  cases hmm : calculatePerformanceMetrics
      ((d.trades.filter (fun t => t.model_version == ver)).map PerfRecord.toSim) with
  | none => rw [hmm] at hm; cases hm
  | some m' =>
    rw [hmm] at hm
    cases hm
    simp only []
    rw [if_neg (Nat.not_lt.mpr hc)]

/-! ## Claims -/

/-- C8: `is_signal_allowed()` returns true iff the persisted
`signal_status` equals ACTIVE, and on a fresh system (no stored document,
hence zero recorded trades) it returns true because the initial state is
ACTIVE with an empty trade list. -/
theorem C8_is_signal_allowed (store : Option HistoryData) :
    (isSignalAllowed store = true ↔
      (loadPerformanceHistory store).signal_status = .active)
    ∧ isSignalAllowed none = true
    ∧ loadPerformanceHistory none = defaultHistory
    ∧ defaultHistory.signal_status = .active
    ∧ defaultHistory.trades = [] := by
  refine ⟨?_, rfl, rfl, rfl, rfl⟩
  unfold isSignalAllowed
  cases h : (loadPerformanceHistory store).signal_status <;> simp [h]

/-- C5: `calculate_performance_metrics` returns no metrics on the empty
sequence; on a nonempty one, `win_rate` is the WIN count over the total,
`net_profit` the sum of all `profit_loss`, and `profit_factor` the winning
sum over the absolute losing sum when the latter is positive and +infinity
otherwise (so +infinity with zero losses and a win, never a division
error); on [win +10, win +20, loss -5, loss -5] the metrics are
win_rate 0.5, profit_factor 3.0, net_profit +20; on an all-winning set the
profit factor is +infinity. -/
theorem C5_calculate_performance_metrics :
    calculatePerformanceMetrics [] = none
    ∧ (∀ (t : SimTrade) (ts : List SimTrade),
        ∃ m, calculatePerformanceMetrics (t :: ts) = some m
          ∧ m.total_trades = (t :: ts).length
          ∧ m.win_rate =
              (((t :: ts).filter (fun r => r.result == .win)).length : ℚ) /
                ((t :: ts).length : ℚ)
          ∧ m.net_profit = ((t :: ts).map (fun r => r.profit_loss)).sum
          ∧ m.profit_factor =
              (if 0 < |(((t :: ts).filter (fun r => r.result == .loss)).map
                        (fun r => r.profit_loss)).sum| then
                PFValue.val
                  ((((t :: ts).filter (fun r => r.result == .win)).map
                      (fun r => r.profit_loss)).sum /
                    |(((t :: ts).filter (fun r => r.result == .loss)).map
                        (fun r => r.profit_loss)).sum|)
              else PFValue.inf))
    ∧ calculatePerformanceMetrics
        [⟨.win, 10⟩, ⟨.win, 20⟩, ⟨.loss, -5⟩, ⟨.loss, -5⟩] =
        some { total_trades := 4, win_rate := 1/2, profit_factor := .val 3,
               net_profit := 20, avg_win := 15, avg_loss := 5 }
    ∧ (calculatePerformanceMetrics [⟨.win, 10⟩, ⟨.win, 20⟩]).map
        (fun m => m.profit_factor) = some .inf := by
  refine ⟨rfl, ?_, ?_, ?_⟩
  · intro t ts
    exact ⟨_, rfl, rfl, rfl, rfl, rfl⟩
  · norm_num [calculatePerformanceMetrics, List.filter,
      tradeResult_beq_win_win, tradeResult_beq_loss_win,
      tradeResult_beq_win_loss, tradeResult_beq_loss_loss]
  · norm_num [calculatePerformanceMetrics, List.filter,
      tradeResult_beq_win_win, tradeResult_beq_win_loss]

/-- C2: with at least `min_trades_for_validation` (20) records matching
the current model version, `validate_performance` persists status ACTIVE
iff win_rate ≥ min_win_rate ∧ profit_factor ≥ min_profit_factor ∧
net_profit > 0, and SUSPENDED otherwise, whatever the prior status was
(`d` is arbitrary), and returns the persisted status. -/
theorem C2_validate_performance (ver : String) (now : ℚ) (d : HistoryData)
    (hcount : minTradesForValidation ≤
      (d.trades.filter (fun t => t.model_version == ver)).length) :
    ∃ m, calculatePerformanceMetrics
        ((d.trades.filter (fun t => t.model_version == ver)).map PerfRecord.toSim) =
          some m
      ∧ ((validatePerformance ver now d).1.signal_status = .active ↔
          (minWinRate ≤ m.win_rate ∧ m.profit_factor.geQ minProfitFactor = true ∧
            0 < m.net_profit))
      ∧ ((validatePerformance ver now d).1.signal_status = .suspended ↔
          ¬ (minWinRate ≤ m.win_rate ∧ m.profit_factor.geQ minProfitFactor = true ∧
            0 < m.net_profit))
      ∧ (validatePerformance ver now d).2 =
          (validatePerformance ver now d).1.signal_status := by
  have hne : (d.trades.filter (fun t => t.model_version == ver)).map PerfRecord.toSim ≠ [] := by
    intro hnil
    rw [← List.length_eq_zero] at hnil
    rw [List.length_map] at hnil
    rw [hnil] at hcount
    exact absurd hcount (by decide)
  obtain ⟨m, hm⟩ := calcMetrics_ne_nil _ hne
  have htot := calcMetrics_total _ _ hm
  rw [List.length_map] at htot
  have hval := validatePerformance_sufficient ver now d m hm (htot ▸ hcount)
  have hok : performanceOk m = true ↔
      (minWinRate ≤ m.win_rate ∧ m.profit_factor.geQ minProfitFactor = true ∧
        0 < m.net_profit) := by
    simp [performanceOk, Bool.and_eq_true, decide_eq_true_eq, and_assoc]
  refine ⟨m, hm, ?_, ?_, ?_⟩ <;> rw [hval] <;>
    by_cases h : performanceOk m = true <;>
    simp only [h, if_true, if_false, Bool.false_eq_true] <;>
    simp [← hok, h]

/-- C3 (amended): with fewer matching records than the minimum,
`validate_performance` leaves the persisted document untouched — so the
stored `performance_metrics` and `last_validation` keep their old values —
and returns the current status as-is; the stored `performance_metrics` and
`last_validation` are updated exactly on the calls with at least the
minimum of matching records, there regardless of whether the status
changed. -/
theorem C3_validate_performance_low_sample (ver : String) (now : ℚ) (d : HistoryData) :
    ((d.trades.filter (fun t => t.model_version == ver)).length <
        minTradesForValidation →
      validatePerformance ver now d = (d, d.signal_status))
    ∧ (minTradesForValidation ≤
        (d.trades.filter (fun t => t.model_version == ver)).length →
      ∃ m, calculatePerformanceMetrics
          ((d.trades.filter (fun t => t.model_version == ver)).map PerfRecord.toSim) =
            some m
        ∧ (validatePerformance ver now d).1.performance_metrics = some m
        ∧ (validatePerformance ver now d).1.last_validation = some now) := by
  constructor
  · exact validatePerformance_insufficient ver now d
  · intro hcount
    have hne : (d.trades.filter (fun t => t.model_version == ver)).map PerfRecord.toSim ≠ [] := by
      intro hnil
      rw [← List.length_eq_zero] at hnil
      rw [List.length_map] at hnil
      rw [hnil] at hcount
      exact absurd hcount (by decide)
    obtain ⟨m, hm⟩ := calcMetrics_ne_nil _ hne
    have htot := calcMetrics_total _ _ hm
    rw [List.length_map] at htot
    rw [validatePerformance_sufficient ver now d m hm (htot ▸ hcount)]
    exact ⟨m, hm, rfl, rfl⟩

/-- Witness for C2 at a concrete 20-record history. -/
theorem C2_validate_performance_witness :
    minTradesForValidation ≤
      (d20.trades.filter (fun t => t.model_version == "v")).length
    ∧ ∃ m, calculatePerformanceMetrics
          ((d20.trades.filter (fun t => t.model_version == "v")).map PerfRecord.toSim) =
            some m
        ∧ ((validatePerformance ("v") 7 d20).1.signal_status = .active ↔
            (minWinRate ≤ m.win_rate ∧ m.profit_factor.geQ minProfitFactor = true ∧
              0 < m.net_profit))
        ∧ ((validatePerformance ("v") 7 d20).1.signal_status = .suspended ↔
            ¬ (minWinRate ≤ m.win_rate ∧ m.profit_factor.geQ minProfitFactor = true ∧
              0 < m.net_profit))
        ∧ (validatePerformance ("v") 7 d20).2 =
            (validatePerformance ("v") 7 d20).1.signal_status :=
  ⟨by decide, C2_validate_performance ("v") 7 d20 (by decide)⟩

/-- Witness for C3 at the concrete 19-record history. -/
theorem C3_validate_performance_low_sample_witness :
    (dC3.trades.filter (fun t => t.model_version == "v1")).length <
        minTradesForValidation
    ∧ validatePerformance ("v1") 99 dC3 = (dC3, dC3.signal_status) :=
  ⟨by decide, (C3_validate_performance_low_sample ("v1") 99 dC3).1 (by decide)⟩

/-- Counterexample for C3 as stated: a call on 19 matching records (every
threshold failing) does NOT update the stored `last_validation` (it stays
at the old value 5 instead of the call time 99) nor `performance_metrics`
(still absent), refuting "every call to validate_performance updates the
stored performance_metrics and last_validation timestamp". -/
theorem C3_counterexample :
    (validatePerformance ("v1") 99 dC3).1.last_validation = some 5
    ∧ (validatePerformance ("v1") 99 dC3).1.performance_metrics = none
    ∧ ¬ ((5 : ℚ) = 99) := by
  rw [validatePerformance_insufficient ("v1") 99 dC3 (by decide)]
  exact ⟨rfl, rfl, by decide⟩

/-- C1 (amended): the PerformanceRecord appended by `record_trade_result`
carries `model_version` equal to `get_current_model_version()` evaluated
at recording (close) time — the Trade created by `add_trade` records no
model version at all — and the gate decision of `validate_performance`
considers only the records whose `model_version` equals the current live
model version: dropping all other records beforehand changes neither the
persisted nor the returned status. -/
theorem C1_model_version_binding (ver : String) (now : ℚ) (sg : ℤ)
    (conf ep : ℚ) (res : TradeResult) (pl : ℚ) (d : HistoryData) :
    (recordTradeResult ver now sg conf ep res pl d).1.trades =
      d.trades ++ [{ timestamp := now, signal := sg, confidence := conf,
                     entry_price := ep, result := res, profit_loss := pl,
                     model_version := ver }]
    ∧ (validatePerformance ver now d).1.signal_status =
        (validatePerformance ver now
          { d with trades := d.trades.filter (fun t => t.model_version == ver) }
          ).1.signal_status
    ∧ (validatePerformance ver now d).2 =
        (validatePerformance ver now
          { d with trades := d.trades.filter (fun t => t.model_version == ver) }).2 := by
  have hfil : List.filter (fun t => t.model_version == ver)
      (List.filter (fun t => t.model_version == ver) d.trades) =
      List.filter (fun t => t.model_version == ver) d.trades := by
    rw [List.filter_filter]
    congr 1
    funext t
    exact Bool.and_self _
  refine ⟨?_, ?_, ?_⟩
  · show (validatePerformance ver now _).1.trades = _
    rw [validatePerformance_trades]
  · simp only [validatePerformance]
    rw [show List.filter (fun t => t.model_version == ver)
        ({ d with trades := List.filter (fun t => t.model_version == ver) d.trades
          } : HistoryData).trades =
        List.filter (fun t => t.model_version == ver) d.trades from hfil]
    cases h : calculatePerformanceMetrics
        ((d.trades.filter (fun t => t.model_version == ver)).map PerfRecord.toSim) with
    | none => rfl
    | some m =>
      simp only []
      split
      · rfl
      · rfl
  · simp only [validatePerformance]
    rw [show List.filter (fun t => t.model_version == ver)
        ({ d with trades := List.filter (fun t => t.model_version == ver) d.trades
          } : HistoryData).trades =
        List.filter (fun t => t.model_version == ver) d.trades from hfil]
    cases h : calculatePerformanceMetrics
        ((d.trades.filter (fun t => t.model_version == ver)).map PerfRecord.toSim) with
    | none => rfl
    | some m =>
      simp only []
      split
      · rfl
      · rfl

/-- Counterexample for C1 as stated: the stamped `model_version` is the
version current at close/record time, not at creation time.  Closing the
same trade while the live version is "v2" stamps "v2"; closing it while
the live version is "v1" stamps "v1" — the stamp follows the close-time
version, so a trade created under "v1" but closed after a retrain to "v2"
is stamped "v2". -/
theorem C1_counterexample :
    ((recordTradeResult ("v2") 50 1 1 100 TradeResult.loss (-5)
        defaultHistory).1.trades.map (fun r => r.model_version)) = ["v2"]
    ∧ ((recordTradeResult ("v1") 50 1 1 100 TradeResult.loss (-5)
        defaultHistory).1.trades.map (fun r => r.model_version)) = ["v1"]
    ∧ "v2" ≠ "v1" := by
  refine ⟨?_, ?_, by decide⟩
  · show ((validatePerformance ("v2") 50 _).1.trades.map _) = _
    rw [validatePerformance_trades]
    rfl
  · show ((validatePerformance ("v1") 50 _).1.trades.map _) = _
    rw [validatePerformance_trades]
    rfl

/-- C6: for an ACTIVE trade evaluated at price `p`, a BUY closes LOSS when
`p ≤ stop_loss` (checked first, so also when take-profit is crossed
simultaneously) and WIN when `p ≥ take_profit`; a SELL closes LOSS when
`p ≥ stop_loss` and WIN when `p ≤ take_profit`; `profit_loss` is the
signed distance from the entry price to the triggering threshold; a BUY
with entry 100, sl 95, tp 110 at price 94 closes LOSS with
profit_loss -5. -/
theorem C6_check_trade_outcomes (p now : ℚ) (t : Trade)
    (hact : t.status = .active) :
    (t.signal.signal = 1 →
      (p ≤ t.signal.stop_loss →
        outcomeStep p now t =
          ({ t with
              status := .closed
              result := some .loss
              profit_loss := some (t.signal.stop_loss - t.signal.entry_price)
              exit_price := some p
              exit_time := some now },
           some ⟨t.signal, .loss, t.signal.stop_loss - t.signal.entry_price⟩))
      ∧ (¬ p ≤ t.signal.stop_loss → t.signal.take_profit ≤ p →
        outcomeStep p now t =
          ({ t with
              status := .closed
              result := some .win
              profit_loss := some (t.signal.take_profit - t.signal.entry_price)
              exit_price := some p
              exit_time := some now },
           some ⟨t.signal, .win, t.signal.take_profit - t.signal.entry_price⟩))
      ∧ (¬ p ≤ t.signal.stop_loss → ¬ t.signal.take_profit ≤ p →
        outcomeStep p now t = (t, none)))
    ∧ (t.signal.signal = 2 →
      (t.signal.stop_loss ≤ p →
        outcomeStep p now t =
          ({ t with
              status := .closed
              result := some .loss
              profit_loss := some (t.signal.entry_price - t.signal.stop_loss)
              exit_price := some p
              exit_time := some now },
           some ⟨t.signal, .loss, t.signal.entry_price - t.signal.stop_loss⟩))
      ∧ (¬ t.signal.stop_loss ≤ p → p ≤ t.signal.take_profit →
        outcomeStep p now t =
          ({ t with
              status := .closed
              result := some .win
              profit_loss := some (t.signal.entry_price - t.signal.take_profit)
              exit_price := some p
              exit_time := some now },
           some ⟨t.signal, .win, t.signal.entry_price - t.signal.take_profit⟩))
      ∧ (¬ t.signal.stop_loss ≤ p → ¬ p ≤ t.signal.take_profit →
        outcomeStep p now t = (t, none))) := by
  have hne : (t.status != TradeStatus.active) = false := by
    rw [hact]; rfl
  constructor
  · intro h1
    have h1b : (t.signal.signal == 1) = true := by
      rw [h1]; rfl
    refine ⟨?_, ?_, ?_⟩
    · intro hsl
      simp only [outcomeStep, hne, Bool.false_eq_true, if_false, h1b, if_true,
        if_pos hsl]
    · intro hsl htp
      simp only [outcomeStep, hne, Bool.false_eq_true, if_false, h1b, if_true,
        if_neg hsl, if_pos htp]
    · intro hsl htp
      simp only [outcomeStep, hne, Bool.false_eq_true, if_false, h1b, if_true,
        if_neg hsl, if_neg htp]
  · intro h2
    have h1b : (t.signal.signal == 1) = false := by
      rw [h2]; rfl
    have h2b : (t.signal.signal == 2) = true := by
      rw [h2]; rfl
    refine ⟨?_, ?_, ?_⟩
    · intro hsl
      simp only [outcomeStep, hne, Bool.false_eq_true, if_false, h1b, h2b,
        if_true, if_pos hsl]
    · intro hsl htp
      simp only [outcomeStep, hne, Bool.false_eq_true, if_false, h1b, h2b,
        if_true, if_neg hsl, if_pos htp]
    · intro hsl htp
      simp only [outcomeStep, hne, Bool.false_eq_true, if_false, h1b, h2b,
        if_true, if_neg hsl, if_neg htp]

/-- Witness for C6: the P6 instance — `tradeBuy` at price 94 closes LOSS
with profit_loss = 95 - 100 = -5. -/
theorem C6_check_trade_outcomes_witness :
    tradeBuy.status = .active ∧ tradeBuy.signal.signal = 1
    ∧ (94 : ℚ) ≤ tradeBuy.signal.stop_loss
    ∧ outcomeStep 94 7 tradeBuy =
        ({ tradeBuy with
            status := .closed
            result := some .loss
            profit_loss := some (tradeBuy.signal.stop_loss - tradeBuy.signal.entry_price)
            exit_price := some 94
            exit_time := some 7 },
         some ⟨tradeBuy.signal, .loss,
               tradeBuy.signal.stop_loss - tradeBuy.signal.entry_price⟩) :=
  ⟨rfl, rfl, by norm_num [tradeBuy],
   ((C6_check_trade_outcomes 94 7 tradeBuy rfl).1 rfl).1
     (by norm_num [tradeBuy])⟩

/-- C7: an ACTIVE trade whose wall-clock age in hours exceeds `maxHours`
is force-closed at the current market price regardless of SL/TP, with
profit_loss = price - entry for a BUY and entry - price otherwise, result
by the sign of profit_loss, and exit_reason the time-based one (TIME_LIMIT);
when the price fetch fails the trade is left untouched for retry. -/
theorem C7_check_time_based_exits (price : Option ℚ) (now maxHours : ℚ)
    (t : Trade) (hact : t.status = .active)
    (hage : maxHours < (now - t.entry_time) / 3600) :
    (price = none → timeExitStep price now maxHours t = (t, none))
    ∧ (∀ p : ℚ, price = some p →
        timeExitStep price now maxHours t =
          ({ t with
              status := .closed
              result := some
                (if 0 < (if t.signal.signal = 1 then p - t.signal.entry_price
                         else t.signal.entry_price - p) then .win
                 else if (if t.signal.signal = 1 then p - t.signal.entry_price
                          else t.signal.entry_price - p) < 0 then .loss
                 else .breakeven)
              profit_loss := some (if t.signal.signal = 1 then p - t.signal.entry_price
                                   else t.signal.entry_price - p)
              exit_price := some p
              exit_time := some now
              exit_reason := some .timeBased },
           some ⟨t.signal,
                 if 0 < (if t.signal.signal = 1 then p - t.signal.entry_price
                         else t.signal.entry_price - p) then .win
                 else if (if t.signal.signal = 1 then p - t.signal.entry_price
                          else t.signal.entry_price - p) < 0 then .loss
                 else .breakeven,
                 if t.signal.signal = 1 then p - t.signal.entry_price
                 else t.signal.entry_price - p⟩)) := by
  have hne : (t.status != TradeStatus.active) = false := by
    rw [hact]; rfl
  have hage' : maxHours ≤ (now - t.entry_time) / 3600 := le_of_lt hage
  constructor
  · intro hp
    subst hp
    simp only [timeExitStep, hne, Bool.false_eq_true, if_false, if_pos hage']
  · intro p hp
    subst hp
    simp only [timeExitStep, hne, Bool.false_eq_true, if_false, if_pos hage']
    by_cases h1 : t.signal.signal = 1
    · simp only [h1, beq_self_eq_true, if_true, eq_self_iff_true]
    · have h1b : (t.signal.signal == 1) = false := beq_eq_false_iff_ne.mpr h1
      simp only [h1b, Bool.false_eq_true, if_false, h1]

/-- Witness for C7: `tradeBuy` opened at time 0, evaluated at time 90000 s
(25 h) with max_hours 24 and price 103 (inside the SL/TP band), closes WIN
with profit_loss 3 and the time-based exit reason. -/
theorem C7_check_time_based_exits_witness :
    tradeBuy.status = .active
    ∧ (24 : ℚ) < ((90000 : ℚ) - tradeBuy.entry_time) / 3600
    ∧ timeExitStep (some 103) 90000 24 tradeBuy =
        ({ tradeBuy with
            status := .closed
            result := some .win
            profit_loss := some 3
            exit_price := some 103
            exit_time := some 90000
            exit_reason := some .timeBased },
         some ⟨tradeBuy.signal, .win, 3⟩) := by
  refine ⟨rfl, by norm_num [tradeBuy], ?_⟩
  have h := (C7_check_time_based_exits (some 103) 90000 24 tradeBuy rfl
    (by norm_num [tradeBuy])).2 103 rfl
  rw [h]
  norm_num [tradeBuy]

/-- A non-active trade passes through the outcome loop untouched and
unreported. -/
theorem outcomeStep_nonactive (p now : ℚ) (t : Trade)
    (h : t.status ≠ .active) : outcomeStep p now t = (t, none) := by
  have hb : (t.status != TradeStatus.active) = true := bne_iff_ne.mpr h
  simp only [outcomeStep, hb, if_true]

/-- A non-active trade passes through the time-exit loop untouched and
unreported. -/
theorem timeExitStep_nonactive (price : Option ℚ) (now maxHours : ℚ) (t : Trade)
    (h : t.status ≠ .active) : timeExitStep price now maxHours t = (t, none) := by
  have hb : (t.status != TradeStatus.active) = true := bne_iff_ne.mpr h
  simp only [timeExitStep, hb, if_true]

/-- C9: both evaluation passes preserve the length and order of the trade
sequence (no removal); a CLOSED trade is passed through bit-for-bit and
generates no `record_trade_result` call; a report event is emitted exactly
when an ACTIVE trade transitions to CLOSED in this pass; and every
`record_trade_result` call appends exactly one PerformanceRecord to the
persisted history. -/
theorem C9_closed_trades_stable (p : ℚ) (price : Option ℚ) (now maxHours : ℚ)
    (trades : List Trade) (t : Trade) :
    (checkTradeOutcomes (some p) now trades).1.length = trades.length
    ∧ (checkTimeBasedExits price now maxHours trades).1.length = trades.length
    ∧ (t.status = .closed →
        outcomeStep p now t = (t, none)
          ∧ timeExitStep price now maxHours t = (t, none))
    ∧ ((outcomeStep p now t).2.isSome = true ↔
        t.status = .active ∧ (outcomeStep p now t).1.status = .closed)
    ∧ ((timeExitStep price now maxHours t).2.isSome = true ↔
        t.status = .active ∧ (timeExitStep price now maxHours t).1.status = .closed)
    ∧ (∀ (i : ℕ) (h : i < trades.length), (trades.get ⟨i, h⟩).status = .closed →
        (checkTradeOutcomes (some p) now trades).1[i]? = some (trades.get ⟨i, h⟩)
          ∧ (checkTimeBasedExits price now maxHours trades).1[i]? =
              some (trades.get ⟨i, h⟩))
    ∧ (∀ (ver : String) (now2 : ℚ) (sg : ℤ) (conf ep : ℚ) (res : TradeResult)
        (pl : ℚ) (d : HistoryData),
        (recordTradeResult ver now2 sg conf ep res pl d).1.trades.length =
          d.trades.length + 1) := by
  refine ⟨?_, ?_, ?_, ?_, ?_, ?_, ?_⟩
  · simp [checkTradeOutcomes]
  · simp [checkTimeBasedExits]
  · intro hcl
    have hne : t.status ≠ .active := by rw [hcl]; intro hcontra; cases hcontra
    exact ⟨outcomeStep_nonactive p now t hne, timeExitStep_nonactive price now maxHours t hne⟩
  · by_cases hst : t.status = .active
    · have hb : (t.status != TradeStatus.active) = false := by rw [hst]; rfl
      simp only [outcomeStep, hb, Bool.false_eq_true, if_false]
      split
      · simp [hst]
      · simp [hst]
    · rw [outcomeStep_nonactive p now t hst]
      simp [hst]
  · by_cases hst : t.status = .active
    · have hb : (t.status != TradeStatus.active) = false := by rw [hst]; rfl
      simp only [timeExitStep, hb, Bool.false_eq_true, if_false]
      split
      · cases price with
        | none => simp [hst]
        | some q => simp [hst]
      · simp [hst]
    · rw [timeExitStep_nonactive price now maxHours t hst]
      simp [hst]
  · intro i h hcl
    have hne : (trades.get ⟨i, h⟩).status ≠ .active := by
      rw [hcl]; intro hcontra; cases hcontra
    constructor
    · simp only [checkTradeOutcomes, List.getElem?_map,
        List.getElem?_eq_getElem h, Option.map_some']
      show some (outcomeStep p now (trades.get ⟨i, h⟩)).1 = _
      rw [outcomeStep_nonactive p now _ hne]
    · simp only [checkTimeBasedExits, List.getElem?_map,
        List.getElem?_eq_getElem h, Option.map_some']
      show some (timeExitStep price now maxHours (trades.get ⟨i, h⟩)).1 = _
      rw [timeExitStep_nonactive price now maxHours _ hne]
  · intro ver now2 sg conf ep res pl d
    show (validatePerformance ver now2 _).1.trades.length = _
    rw [validatePerformance_trades]
    simp

/-- Witness for C9: the closed trade is passed through untouched by both
passes. -/
theorem C9_closed_trades_stable_witness :
    tradeClosed.status = .closed
    ∧ outcomeStep 94 7 tradeClosed = (tradeClosed, none)
    ∧ timeExitStep (some 94) 7 24 tradeClosed = (tradeClosed, none) :=
  ⟨rfl, (C9_closed_trades_stable 94 (some 94) 7 24 [] tradeClosed).2.2.1 rfl⟩

/-- The metrics of a nonempty list, with every field spelled out. -/
theorem calcMetrics_eq (l : List SimTrade) (hne : l ≠ []) :
    calculatePerformanceMetrics l = some
      { total_trades := l.length
        win_rate := ((l.filter (fun r => r.result == .win)).length : ℚ) / (l.length : ℚ)
        profit_factor :=
          if 0 < |((l.filter (fun r => r.result == .loss)).map
                    (fun r => r.profit_loss)).sum| then
            PFValue.val
              (((l.filter (fun r => r.result == .win)).map
                  (fun r => r.profit_loss)).sum /
                |((l.filter (fun r => r.result == .loss)).map
                    (fun r => r.profit_loss)).sum|)
          else PFValue.inf
        net_profit := (l.map (fun r => r.profit_loss)).sum
        avg_win :=
          if (l.filter (fun r => r.result == .win)).isEmpty then 0
          else ((l.filter (fun r => r.result == .win)).map
                  (fun r => r.profit_loss)).sum /
            ((l.filter (fun r => r.result == .win)).length : ℚ)
        avg_loss :=
          if (l.filter (fun r => r.result == .loss)).isEmpty then 0
          else |((l.filter (fun r => r.result == .loss)).map
                  (fun r => r.profit_loss)).sum| /
            ((l.filter (fun r => r.result == .loss)).length : ℚ) } := by
  cases l with
  | nil => exact absurd rfl hne
  | cons t ts => rfl

/-- C10 (amended): a trade closed by `check_trade_outcomes` always has
result WIN or LOSS; a time-based exit yields BREAKEVEN exactly when its
profit_loss is zero; and in `calculate_performance_metrics` a BREAKEVEN
record counts toward `total_trades` and the win-rate denominator while
contributing to neither the profit-factor sums nor avg_win/avg_loss, so
appending a breakeven record never raises the win rate: it strictly lowers
it when at least one win is present and leaves it unchanged (at zero)
otherwise. -/
theorem C10_breakeven_semantics :
    (∀ (p now : ℚ) (t : Trade) (ev : RecEvent),
      (outcomeStep p now t).2 = some ev →
        ev.result = .win ∨ ev.result = .loss)
    ∧ (∀ (price : Option ℚ) (now maxHours : ℚ) (t : Trade) (ev : RecEvent),
      (timeExitStep price now maxHours t).2 = some ev →
        (ev.result = .breakeven ↔ ev.profit_loss = 0))
    ∧ (∀ (l : List SimTrade) (b : ℚ), l ≠ [] →
      ∃ m m', calculatePerformanceMetrics l = some m
        ∧ calculatePerformanceMetrics (l ++ [⟨.breakeven, b⟩]) = some m'
        ∧ m'.total_trades = m.total_trades + 1
        ∧ m'.profit_factor = m.profit_factor
        ∧ m'.avg_win = m.avg_win
        ∧ m'.avg_loss = m.avg_loss
        ∧ m'.win_rate =
            ((l.filter (fun r => r.result == .win)).length : ℚ) / ((l.length : ℚ) + 1)
        ∧ (0 < (l.filter (fun r => r.result == .win)).length →
            m'.win_rate < m.win_rate)
        ∧ ((l.filter (fun r => r.result == .win)).length = 0 →
            m'.win_rate = m.win_rate)) := by
  refine ⟨?_, ?_, ?_⟩
  · intro p now t ev hev
    by_cases hst : t.status = .active
    · have hb : (t.status != TradeStatus.active) = false := by rw [hst]; rfl
      simp only [outcomeStep, hb, Bool.false_eq_true, if_false] at hev
      split at hev
      · cases hev
      · rename_i r pl heq
        cases hev
        split at heq
        · split at heq
          · cases heq; exact Or.inr rfl
          · split at heq
            · cases heq; exact Or.inl rfl
            · cases heq
        · split at heq
          · split at heq
            · cases heq; exact Or.inr rfl
            · split at heq
              · cases heq; exact Or.inl rfl
              · cases heq
          · cases heq
    · rw [outcomeStep_nonactive p now t hst] at hev
      cases hev
  · intro price now maxHours t ev hev
    by_cases hst : t.status = .active
    · have hb : (t.status != TradeStatus.active) = false := by rw [hst]; rfl
      simp only [timeExitStep, hb, Bool.false_eq_true, if_false] at hev
      split at hev
      · cases price with
        | none => cases hev
        | some q =>
          have hev2 : ev = ⟨t.signal,
              if 0 < (if (t.signal.signal == 1) = true then q - t.signal.entry_price
                      else t.signal.entry_price - q) then .win
              else if (if (t.signal.signal == 1) = true then q - t.signal.entry_price
                       else t.signal.entry_price - q) < 0 then .loss
              else .breakeven,
              if (t.signal.signal == 1) = true then q - t.signal.entry_price
              else t.signal.entry_price - q⟩ := (Option.some.inj hev).symm
          subst hev2
          show (if 0 < (if (t.signal.signal == 1) = true then q - t.signal.entry_price
                        else t.signal.entry_price - q) then TradeResult.win
                else if (if (t.signal.signal == 1) = true then q - t.signal.entry_price
                         else t.signal.entry_price - q) < 0 then TradeResult.loss
                else TradeResult.breakeven) = .breakeven ↔
              (if (t.signal.signal == 1) = true then q - t.signal.entry_price
               else t.signal.entry_price - q) = 0
          rcases lt_trichotomy
              (if (t.signal.signal == 1) = true then q - t.signal.entry_price
               else t.signal.entry_price - q) 0 with hlt | heq0 | hgt
          · rw [if_neg (lt_asymm hlt), if_pos hlt]
            exact ⟨fun h => TradeResult.noConfusion h,
                   fun h0 => absurd h0 (ne_of_lt hlt)⟩
          · rw [heq0]
            norm_num
          · rw [if_pos hgt]
            exact ⟨fun h => TradeResult.noConfusion h,
                   fun h0 => absurd h0 (ne_of_gt hgt)⟩
      · cases hev
    · rw [timeExitStep_nonactive price now maxHours t hst] at hev
      cases hev
  · intro l b hne
    have hne2 : l ++ [(⟨.breakeven, b⟩ : SimTrade)] ≠ [] := by simp
    have hw : (l ++ [(⟨.breakeven, b⟩ : SimTrade)]).filter
        (fun r => r.result == .win) = l.filter (fun r => r.result == .win) := by
      rw [List.filter_append]
      simp [List.filter, tradeResult_beq_breakeven_win]
    have hlo : (l ++ [(⟨.breakeven, b⟩ : SimTrade)]).filter
        (fun r => r.result == .loss) = l.filter (fun r => r.result == .loss) := by
      rw [List.filter_append]
      simp [List.filter, tradeResult_beq_breakeven_loss]
    have hlen : ((l ++ [(⟨.breakeven, b⟩ : SimTrade)]).length : ℚ) =
        (l.length : ℚ) + 1 := by
      push_cast [List.length_append, List.length_singleton]
      ring
    rw [calcMetrics_eq l hne, calcMetrics_eq _ hne2]
    refine ⟨_, _, rfl, rfl, by simp, ?_, ?_, ?_, ?_, ?_, ?_⟩
    · simp only [hw, hlo]
    · simp only [hw]
    · simp only [hlo]
    · simp only [hw, hlen]
    · intro hpos
      simp only [hw, hlen]
      have hn : (0 : ℚ) < (l.length : ℚ) := by
        have : 0 < l.length := List.length_pos.mpr hne
        exact_mod_cast this
      have hW : (0 : ℚ) < ((l.filter (fun r => r.result == .win)).length : ℚ) := by
        exact_mod_cast hpos
      exact div_lt_div_of_pos_left hW hn (by linarith)
    · intro h0
      simp only [hw, hlen, h0, Nat.cast_zero, zero_div]

/-- Counterexample for C10 as stated: appending a breakeven record to a
winless record list leaves the win rate unchanged at 0 — it does not
strictly lower it. -/
theorem C10_counterexample :
    (calculatePerformanceMetrics [⟨.loss, -1⟩]).map (fun m => m.win_rate) =
      some 0
    ∧ (calculatePerformanceMetrics [⟨.loss, -1⟩, ⟨.breakeven, 0⟩]).map
        (fun m => m.win_rate) = some 0 := by
  constructor <;>
    norm_num [calculatePerformanceMetrics, List.filter,
      tradeResult_beq_loss_win, tradeResult_beq_breakeven_win,
      tradeResult_beq_loss_loss, tradeResult_beq_breakeven_loss]

/-- Witness for C10 at a concrete list: appending a breakeven to
[win +10] strictly lowers the win rate. -/
theorem C10_breakeven_semantics_witness :
    ([(⟨.win, 10⟩ : SimTrade)] ≠ [])
    ∧ ∃ m m', calculatePerformanceMetrics [(⟨.win, 10⟩ : SimTrade)] = some m
        ∧ calculatePerformanceMetrics
            ([(⟨.win, 10⟩ : SimTrade)] ++ [⟨.breakeven, 0⟩]) = some m'
        ∧ m'.total_trades = m.total_trades + 1
        ∧ m'.profit_factor = m.profit_factor
        ∧ m'.avg_win = m.avg_win
        ∧ m'.avg_loss = m.avg_loss
        ∧ m'.win_rate =
            ((([(⟨.win, 10⟩ : SimTrade)]).filter
                (fun r => r.result == .win)).length : ℚ) /
              ((([(⟨.win, 10⟩ : SimTrade)]).length : ℚ) + 1)
        ∧ (0 < (([(⟨.win, 10⟩ : SimTrade)]).filter
              (fun r => r.result == .win)).length →
            m'.win_rate < m.win_rate)
        ∧ ((([(⟨.win, 10⟩ : SimTrade)]).filter
              (fun r => r.result == .win)).length = 0 →
            m'.win_rate = m.win_rate) :=
  ⟨by decide, C10_breakeven_semantics.2.2 [⟨.win, 10⟩] 0 (by decide)⟩

/-- One step of the row loop on a trade-less row. -/
theorem historicalLoop_cons_none (acc : List SimTrade) (rest : List (Option ℚ)) :
    historicalLoop acc (none :: rest) =
      if 10 ≤ acc.length then historicalDecision acc
      else historicalLoop acc rest := rfl

/-- One step of the row loop on a row producing a synthetic trade. -/
theorem historicalLoop_cons_some (acc : List SimTrade) (pl : ℚ)
    (rest : List (Option ℚ)) :
    historicalLoop acc (some pl :: rest) =
      if 10 ≤ (acc ++ [simOutcome pl]).length then
        historicalDecision (acc ++ [simOutcome pl])
      else historicalLoop (acc ++ [simOutcome pl]) rest := rfl

/-- With fewer than 10 synthetic trades in the whole sweep the row loop
falls through to the insufficient-data result. -/
theorem historicalLoop_insufficient (rows : List (Option ℚ)) :
    ∀ acc : List SimTrade,
      acc.length + (rows.filterMap id).length < 10 →
      historicalLoop acc rows = (false, none) := by
  induction rows with
  | nil => intro acc h; rfl
  | cons r rest ih =>
    intro acc h
    cases r with
    | none =>
      rw [show ((none :: rest : List (Option ℚ)).filterMap id) =
          rest.filterMap id from rfl] at h
      rw [historicalLoop_cons_none, if_neg (by omega)]
      exact ih acc h
    | some pl =>
      rw [show (((some pl) :: rest : List (Option ℚ)).filterMap id) =
          pl :: rest.filterMap id from rfl, List.length_cons] at h
      have hlen : (acc ++ [simOutcome pl]).length = acc.length + 1 := by simp
      rw [historicalLoop_cons_some, if_neg (by rw [hlen]; omega)]
      exact ih _ (by rw [hlen]; omega)

/-- With at least 10 synthetic trades in the sweep the row loop returns
the decision taken on the first 10 accumulated trades. -/
theorem historicalLoop_sufficient (rows : List (Option ℚ)) :
    ∀ acc : List SimTrade,
      acc.length < 10 →
      10 ≤ acc.length + (rows.filterMap id).length →
      historicalLoop acc rows =
        historicalDecision ((acc ++ (rows.filterMap id).map simOutcome).take 10) := by
  induction rows with
  | nil =>
    intro acc h1 h2
    rw [show (([] : List (Option ℚ)).filterMap id) = [] from rfl,
      List.length_nil] at h2
    omega
  | cons r rest ih =>
    intro acc h1 h2
    cases r with
    | none =>
      rw [show ((none :: rest : List (Option ℚ)).filterMap id) =
          rest.filterMap id from rfl] at h2 ⊢
      rw [historicalLoop_cons_none, if_neg (by omega)]
      exact ih acc h1 h2
    | some pl =>
      rw [show (((some pl) :: rest : List (Option ℚ)).filterMap id) =
          pl :: rest.filterMap id from rfl] at h2 ⊢
      rw [List.length_cons] at h2
      have hlen : (acc ++ [simOutcome pl]).length = acc.length + 1 := by simp
      rw [historicalLoop_cons_some]
      by_cases hc : 10 ≤ acc.length + 1
      · rw [if_pos (by rw [hlen]; omega)]
        have h9 : acc.length = 9 := by omega
        rw [List.map_cons,
          show acc ++ simOutcome pl :: (rest.filterMap id).map simOutcome =
            (acc ++ [simOutcome pl]) ++ (rest.filterMap id).map simOutcome from
            by simp,
          List.take_left' (by rw [hlen, h9])]
      · rw [if_neg (by rw [hlen]; omega)]
        rw [ih (acc ++ [simOutcome pl]) (by rw [hlen]; omega)
          (by rw [hlen]; omega)]
        congr 1
        simp

/-- The decision block on a cohort of exactly 10 trades: overall metrics
on all 10, recent metrics on the last 5 (`max 5 (10 / 3) = 5`), pass iff
(overall clears both full thresholds ∧ recent clears the relaxed ones) ∨
the recent win rate alone clears the full win-rate threshold. -/
theorem historicalDecision_len10 (ts : List SimTrade) (h : ts.length = 10) :
    ∃ mo mr, calculatePerformanceMetrics ts = some mo
      ∧ calculatePerformanceMetrics (ts.drop 5) = some mr
      ∧ historicalDecision ts =
          (((decide (minWinRate ≤ mo.win_rate) &&
              mo.profit_factor.geQ minProfitFactor) &&
            (decide (minWinRate - 1/20 ≤ mr.win_rate) &&
              mr.profit_factor.geQ (minProfitFactor - 1/5))) ||
            decide (minWinRate ≤ mr.win_rate), some mo) := by
  have hne : ts ≠ [] := by
    intro h0
    rw [h0] at h
    cases h
  obtain ⟨mo, hmo⟩ := calcMetrics_ne_nil ts hne
  have hne2 : ts.drop 5 ≠ [] := by
    intro h0
    have hl := congrArg List.length h0
    rw [List.length_drop, h] at hl
    cases hl
  obtain ⟨mr, hmr⟩ := calcMetrics_ne_nil _ hne2
  refine ⟨mo, mr, hmo, hmr, ?_⟩
  simp only [historicalDecision, hmo, h]
  rw [show (10 : ℕ) - max 5 (10 / 3) = 5 from rfl] at *
  rw [hmr]

/-- C4 (amended): with fewer than 10 synthetic trades produced over the
whole sweep, the Historical Backtest Validator returns passed=False with
no metrics, and `post_retrain_validation` then persists and returns
SUSPENDED whatever the trades' win rate; with at least 10, the decision is
taken on the first 10 accumulated synthetic trades and passes iff (their
overall metrics clear the full thresholds AND their last-5 recent cohort
clears the relaxed thresholds) OR the recent cohort's win rate alone meets
the full min win rate — the recent cohort's profit factor is not checked
in that second branch. -/
theorem C4_historical_validation :
    (∀ rows : List (Option ℚ), (rows.filterMap id).length < 10 →
      validateNewModelOnHistoricalData rows = (false, none)
      ∧ ∀ (ver : String) (now : ℚ) (d : HistoryData),
          (postRetrainValidation ver now
            (validateNewModelOnHistoricalData rows) d).1.signal_status = .suspended
          ∧ (postRetrainValidation ver now
              (validateNewModelOnHistoricalData rows) d).2 = .suspended)
    ∧ (∀ rows : List (Option ℚ), 10 ≤ (rows.filterMap id).length →
      validateNewModelOnHistoricalData rows =
        historicalDecision (((rows.filterMap id).map simOutcome).take 10))
    ∧ (∀ ts : List SimTrade, ts.length = 10 →
      ∃ mo mr, calculatePerformanceMetrics ts = some mo
        ∧ calculatePerformanceMetrics (ts.drop 5) = some mr
        ∧ historicalDecision ts =
            (((decide (minWinRate ≤ mo.win_rate) &&
                mo.profit_factor.geQ minProfitFactor) &&
              (decide (minWinRate - 1/20 ≤ mr.win_rate) &&
                mr.profit_factor.geQ (minProfitFactor - 1/5))) ||
              decide (minWinRate ≤ mr.win_rate), some mo)) := by
  refine ⟨?_, ?_, historicalDecision_len10⟩
  · intro rows h
    have hv : validateNewModelOnHistoricalData rows = (false, none) :=
      historicalLoop_insufficient rows [] (by simpa using h)
    refine ⟨hv, ?_⟩
    intro ver now d
    rw [hv]
    exact ⟨rfl, rfl⟩
  · intro rows h
    have := historicalLoop_sufficient rows [] (by norm_num) (by simpa using h)
    simpa [validateNewModelOnHistoricalData] using this

/-- Counterexample for C4 as stated: on `rowsC4` the code PASSES (the
recent cohort's win rate 3/5 meets 0.55, and the code's second branch
checks nothing else), while the claim's rule FAILS the same trades
(overall win rate 3/10 misses the full thresholds and the recent cohort's
profit factor 3/20 misses the full 1.2 threshold), so the claimed iff is
false at this input. -/
theorem C4_counterexample :
    (validateNewModelOnHistoricalData rowsC4).1 = true
    ∧ ((rowsC4.filterMap id).map simOutcome) = tradesC4
    ∧ claimedHistoricalPass tradesC4 = false := by
  have hmap : ((rowsC4.filterMap id).map simOutcome) = tradesC4 := by
    decide
  have hsuff := historicalLoop_sufficient rowsC4 [] (by norm_num) (by decide)
  refine ⟨?_, hmap, ?_⟩
  · rw [validateNewModelOnHistoricalData, hsuff, List.nil_append, hmap,
      show tradesC4.take 10 = tradesC4 from rfl]
    norm_num [historicalDecision, calculatePerformanceMetrics, tradesC4,
      List.filter, tradeResult_beq_win_win, tradeResult_beq_loss_win,
      tradeResult_beq_win_loss, tradeResult_beq_loss_loss, PFValue.geQ,
      minWinRate, minProfitFactor]
  · norm_num [claimedHistoricalPass, calculatePerformanceMetrics, tradesC4,
      List.filter, tradeResult_beq_win_win, tradeResult_beq_loss_win,
      tradeResult_beq_win_loss, tradeResult_beq_loss_loss, PFValue.geQ,
      minWinRate, minProfitFactor]

/-- Witness for C4 at the concrete 10-trade sweep. -/
theorem C4_historical_validation_witness :
    10 ≤ (rowsC4.filterMap id).length
    ∧ validateNewModelOnHistoricalData rowsC4 =
        historicalDecision (((rowsC4.filterMap id).map simOutcome).take 10) :=
  ⟨by decide, C4_historical_validation.2.1 rowsC4 (by decide)⟩

end GoldAI
